import Mathlib

/-!
# Verification of the BTCUSD chart annotation engine

Shallow embedding of the drawing subsystem of the btcusd-tradingview-chart
repository: the tool implementations (`TrendLineTool`, `FibRetracementTool`),
the primitive-based `DrawingManager` (the variant that attaches primitives to
the host chart series), the `Toolbar`, and the `EventBus`.

Modelling conventions:
* JS numbers are modelled as `ℚ`; the two irrational derived quantities the
  code computes (`Math.sqrt`, `Math.atan2`) are modelled in `ℝ`.
* JS `null`/`undefined` are both modelled as `none : Option ℚ`.  Where the
  source performs arithmetic on a possibly-`null` value, the JS coercion of
  `null` to `0` is modelled by `jsNum`; the `undefined → NaN` variant is not
  distinguished (no claim exercises it).
* JS objects whose keys may be absent (`options` bags, loosely shaped import
  records) are structures of `Option` fields; the spread `{...a, ...b}` is the
  field-wise right-biased merge `JsOptions.spread`.
* A function that can throw returns `Except σ σ`: the `error` branch carries
  the state at the point of the throw (JS exceptions abort the handler but
  keep all mutations already performed).
-/

namespace BTChart

/-- JS coercion of a possibly-`null` numeric value in arithmetic: `null`
coerces to `0`. -/
def jsNum (v : Option ℚ) : ℚ := v.getD 0

/-- JS `Math.round`: rounds half toward positive infinity,
`Math.round x = ⌊x + 0.5⌋`. -/
def jsRound (q : ℚ) : ℤ := ⌊q + 1/2⌋

/-- `Math.round(p * 100) / 100` — the 2-decimal price snapping used by every
tool when `snapToPrice` is enabled. -/
def snap2 (q : ℚ) : ℚ := (jsRound (q * 100) : ℚ) / 100

/-- Numeric value of JS `x.toFixed(1)` for the (exactly representable)
inputs the Fibonacci tool formats. -/
def toFixed1 (q : ℚ) : ℚ := (jsRound (q * 10) : ℚ) / 10

/-- The union of the option-bag fields the drawing subsystem reads or writes.
JS option objects are open records; absent keys are `none`. -/
structure JsOptions where
  lineWidth : Option ℚ := none
  lineColor : Option String := none
  fillColor : Option String := none
  lineStyle : Option String := none
  extendLeft : Option Bool := none
  extendRight : Option Bool := none
  extendHorizontal : Option Bool := none
  showLabels : Option Bool := none
  showPercentage : Option Bool := none
  showPrice : Option Bool := none
  snapToPrice : Option Bool := none
  snapToTime : Option Bool := none
  enableUndo : Option Bool := none
  maxDrawings : Option ℚ := none
  levels : Option (List ℚ) := none
  levelColors : Option (List (ℚ × String)) := none
  deriving DecidableEq

/-- JS object spread `{...a, ...b}`: a key of `b` wins when present. -/
def JsOptions.spread (a b : JsOptions) : JsOptions where
  lineWidth := b.lineWidth <|> a.lineWidth
  lineColor := b.lineColor <|> a.lineColor
  fillColor := b.fillColor <|> a.fillColor
  lineStyle := b.lineStyle <|> a.lineStyle
  extendLeft := b.extendLeft <|> a.extendLeft
  extendRight := b.extendRight <|> a.extendRight
  extendHorizontal := b.extendHorizontal <|> a.extendHorizontal
  showLabels := b.showLabels <|> a.showLabels
  showPercentage := b.showPercentage <|> a.showPercentage
  showPrice := b.showPrice <|> a.showPrice
  snapToPrice := b.snapToPrice <|> a.snapToPrice
  snapToTime := b.snapToTime <|> a.snapToTime
  enableUndo := b.enableUndo <|> a.enableUndo
  maxDrawings := b.maxDrawings <|> a.maxDrawings
  levels := b.levels <|> a.levels
  levelColors := b.levelColors <|> a.levelColors

/-- A `{time, price, screenX, screenY}` point as stored inside drawing data.
Any of the fields may be absent (`null`/`undefined`). -/
structure DrawPoint where
  time : Option ℚ := none
  price : Option ℚ := none
  screenX : Option ℚ := none
  screenY : Option ℚ := none
  deriving DecidableEq

/-- The coordinate object produced by `DrawingManager.screenToChart`:
`time`/`price` may be unresolved, `screenX`/`screenY` are always present. -/
structure Coords where
  time : Option ℚ := none
  price : Option ℚ := none
  screenX : ℚ
  screenY : ℚ
  deriving DecidableEq

/-! ## FibRetracementTool -/

namespace FibRetracementTool

/-- One entry of the computed Fibonacci level table.  `percentage` carries the
numeric value of the `(level * 100).toFixed(1)` label. -/
structure FibLevel where
  level : ℚ
  percentage : ℚ
  price : ℚ
  color : String
  deriving DecidableEq

/-- Default level-color table from the `FibRetracementTool` constructor. -/
def defaultLevelColors : List (ℚ × String) :=
  [(0, "#FF6B6B"), (236/1000, "#4ECDC4"), (382/1000, "#45B7D1"),
   (1/2, "#96CEB4"), (618/1000, "#FFEAA7"), (786/1000, "#DDA0DD"),
   (1, "#FF6B6B")]

/-- Options of a default-constructed `FibRetracementTool` (constructor
argument `{}`), i.e. `this.options` of the tool instance. -/
def instOptions : JsOptions :=
  { lineWidth := some 1
    lineColor := some "#9B59B6"
    fillColor := some "rgba(155, 89, 182, 0.1)"
    extendHorizontal := some true
    showLabels := some true
    showPercentage := some true
    levels := some [0, 236/1000, 382/1000, 1/2, 618/1000, 786/1000, 1]
    levelColors := some defaultLevelColors
    snapToPrice := some true }

/-- Lookup in a level-color object (`levelColors[level]`). -/
def lookupColor : List (ℚ × String) → ℚ → Option String
  | [], _ => none
  | (k, c) :: rest, l => if k = l then some c else lookupColor rest l

/-- `FibRetracementTool.calculateFibLevels`.  Follows the source line by
line: `priceDiff = (endPoint.price ?? startPoint.price) - startPoint.price`,
then one table row per configured level with
`price = startPoint.price + priceDiff * level`. -/
def calculateFibLevels (startPoint endPoint : Option DrawPoint)
    (options : JsOptions) : List FibLevel :=
  match startPoint, endPoint with
  | some sp, some ep =>
    let priceDiff := jsNum (ep.price <|> sp.price) - jsNum sp.price
    let levelOptions := ((options.levels <|> instOptions.levels).getD [])
    levelOptions.map fun level =>
      { level := level
        percentage := toFixed1 (level * 100)
        price := jsNum sp.price + priceDiff * level
        color := ((options.levelColors.bind fun m => lookupColor m level).getD
          (instOptions.lineColor.getD "")) }
  | _, _ => []

end FibRetracementTool

/-! ## TrendLineTool -/

/-- A JS number that may be one of the IEEE infinities (produced by the
unguarded divisions in the label code). -/
inductive JsSignedNum where
  | num (q : ℚ)
  | posInf
  | negInf
  deriving DecidableEq

/-- JS `Math.atan2`. -/
noncomputable def jsAtan2 (y x : ℝ) : ℝ :=
  if 0 < x then Real.arctan (y / x)
  else if x < 0 then
    (if 0 ≤ y then Real.arctan (y / x) + Real.pi else Real.arctan (y / x) - Real.pi)
  else if 0 < y then Real.pi / 2
  else if y < 0 then -(Real.pi / 2)
  else 0

/-- JS `dy / dx || 0`: `none` marks the non-finite value `dy / 0` (an IEEE
infinity, which is truthy and therefore kept by `|| 0`). -/
def jsSlope (dy dx : ℚ) : Option ℚ :=
  if dx = 0 then (if dy = 0 then some 0 else none) else some (dy / dx)

/-- The trend-line drawing data object.  `startPoint`/`endPoint` may be
absent on loosely shaped (imported) data; the derived fields are only set by
`finalizeDrawingData`. -/
structure TLDrawing where
  type : String
  startPoint : Option DrawPoint := none
  endPoint : Option DrawPoint := none
  options : JsOptions := {}
  timestamp : ℕ := 0
  lineLength : Option ℝ := none
  angle : Option ℝ := none
  slope : Option ℚ := none
  priceDifference : Option ℚ := none
  timeDifference : Option ℚ := none

/-- A `{time, price}` pair as it appears in serialized JSON. -/
structure DomPoint where
  time : Option ℚ := none
  price : Option ℚ := none
  deriving DecidableEq

/-- The serialized form produced by `TrendLineTool.toJSON`: note the type has
no screen-coordinate and no derived fields at all. -/
structure TLJSON where
  type : String
  startPoint : DomPoint
  endPoint : DomPoint
  options : JsOptions
  timestamp : ℕ
  deriving DecidableEq

namespace TrendLineTool

/-- Options of a default-constructed `TrendLineTool` (its constructor merged
over the `BaseTool` defaults). -/
def instOptions : JsOptions :=
  { lineWidth := some 2
    lineColor := some "#FF6B6B"
    fillColor := some "rgba(255, 107, 107, 0.1)"
    extendLeft := some false
    extendRight := some false
    snapToPrice := some true }

/-- `TrendLineTool.createDrawing`: both anchors start at the gesture's
starting coordinates, screen coordinates included. -/
def createDrawing (coords : Coords) (options : JsOptions) (now : ℕ) : TLDrawing :=
  let p : DrawPoint :=
    { time := coords.time, price := coords.price,
      screenX := some coords.screenX, screenY := some coords.screenY }
  { type := "TrendLine", startPoint := some p, endPoint := some p,
    options := instOptions.spread options, timestamp := now }

/-- `TrendLineTool.updateDrawingData`: replaces the trailing anchor, applying
2-decimal price snapping when `snapToPrice` is enabled and the price
resolved. -/
def updateDrawingData (drawing : TLDrawing) (coords : Coords) : TLDrawing :=
  match drawing.endPoint with
  | none => drawing
  | some _ =>
    let finalPrice : Option ℚ :=
      if drawing.options.snapToPrice.getD false = true ∧ coords.price ≠ none
      then coords.price.map snap2 else coords.price
    let ep : DrawPoint :=
      { time := coords.time, price := finalPrice,
        screenX := some coords.screenX, screenY := some coords.screenY }
    { drawing with endPoint := some ep }

/-- `TrendLineTool.finalizeDrawingData`: last update plus the derived
fields (screen-space length/angle/slope and price/time differences). -/
noncomputable def finalizeDrawingData (drawing : TLDrawing) (coords : Coords) : TLDrawing :=
  let d := updateDrawingData drawing coords
  match d.startPoint, d.endPoint with
  | some sp, some ep =>
    let dx : ℚ := jsNum ep.screenX - jsNum sp.screenX
    let dy : ℚ := jsNum ep.screenY - jsNum sp.screenY
    { d with
      lineLength := some (Real.sqrt ((dx : ℝ) ^ 2 + (dy : ℝ) ^ 2))
      angle := some (jsAtan2 (dy : ℝ) (dx : ℝ))
      slope := jsSlope dy dx
      priceDifference := some (jsNum ep.price - jsNum sp.price)
      timeDifference := some (jsNum ep.time - jsNum sp.time) }
  | _, _ => d

/-- The projection parameter of `TrendLineTool.pointToLineDistance`:
`dot / lenSq` when the segment is non-degenerate, `-1` otherwise. -/
def pointToLineParam (px py x1 y1 x2 y2 : ℚ) : ℚ :=
  let A := px - x1
  let B := py - y1
  let C := x2 - x1
  let D := y2 - y1
  let dot := A * C + B * D
  let lenSq := C * C + D * D
  if lenSq ≠ 0 then dot / lenSq else -1

/-- The nearest point `(xx, yy)` computed by
`TrendLineTool.pointToLineDistance` (the parameter clamped to the
segment). -/
def pointToLineNearest (px py x1 y1 x2 y2 : ℚ) : ℚ × ℚ :=
  let param := pointToLineParam px py x1 y1 x2 y2
  if param < 0 then (x1, y1)
  else if 1 < param then (x2, y2)
  else (x1 + param * (x2 - x1), y1 + param * (y2 - y1))

/-- `TrendLineTool.pointToLineDistance`: distance from `(px, py)` to the
segment `(x1, y1)-(x2, y2)`, by clamping the projection parameter. -/
noncomputable def pointToLineDistance (px py x1 y1 x2 y2 : ℚ) : ℝ :=
  Real.sqrt
    (((px - (pointToLineNearest px py x1 y1 x2 y2).1 : ℚ) : ℝ) ^ 2 +
     ((py - (pointToLineNearest px py x1 y1 x2 y2).2 : ℚ) : ℝ) ^ 2)

/-- `TrendLineTool.isPointInside`: segment distance within `tolerance`, or
either endpoint within `tolerance + 5`.  Missing anchors (or missing screen
coordinates, whose JS `NaN` arithmetic makes every comparison false) yield
`False`. -/
noncomputable def isPointInside (drawing : TLDrawing) (p : ℚ × ℚ) (tolerance : ℚ) : Prop :=
  match drawing.startPoint, drawing.endPoint with
  | some sp, some ep =>
    match sp.screenX, sp.screenY, ep.screenX, ep.screenY with
    | some x1, some y1, some x2, some y2 =>
      pointToLineDistance p.1 p.2 x1 y1 x2 y2 ≤ (tolerance : ℝ) ∨
      Real.sqrt (((p.1 - x1 : ℚ) : ℝ) ^ 2 + ((p.2 - y1 : ℚ) : ℝ) ^ 2) ≤ (tolerance : ℝ) + 5 ∨
      Real.sqrt (((p.1 - x2 : ℚ) : ℝ) ^ 2 + ((p.2 - y2 : ℚ) : ℝ) ^ 2) ≤ (tolerance : ℝ) + 5
    | _, _, _, _ => False
  | _, _ => False

/-- `TrendLineTool.toJSON`: projects both anchors to domain coordinates
only.  `none` models the TypeError the source would throw on a missing
anchor. -/
def toJSON (drawing : TLDrawing) : Option TLJSON :=
  match drawing.startPoint, drawing.endPoint with
  | some sp, some ep =>
    some { type := drawing.type
           startPoint := { time := sp.time, price := sp.price }
           endPoint := { time := ep.time, price := ep.price }
           options := drawing.options
           timestamp := drawing.timestamp }
  | _, _ => none

/-- `TrendLineTool.fromJSON`: rebuilds the drawing, resolving fresh screen
coordinates through the supplied coordinate mapper.  No derived field is
recomputed (or read from the data). -/
def fromJSON (data : TLJSON)
    (coordinateMapper : Option ℚ → Option ℚ → Option ℚ × Option ℚ)
    (now : ℕ) : TLDrawing :=
  let screenStart := coordinateMapper data.startPoint.time data.startPoint.price
  let screenEnd := coordinateMapper data.endPoint.time data.endPoint.price
  { type := data.type
    startPoint := some { time := data.startPoint.time, price := data.startPoint.price,
                         screenX := screenStart.1, screenY := screenStart.2 }
    endPoint := some { time := data.endPoint.time, price := data.endPoint.price,
                       screenX := screenEnd.1, screenY := screenEnd.2 }
    options := instOptions.spread data.options
    timestamp := if data.timestamp ≠ 0 then data.timestamp else now }

end TrendLineTool

/-- What `TrendLinePrimitive.drawLabel` computes before painting the label:
the absolute price difference and the percentage obtained by dividing by the
start anchor's price (an IEEE infinity when that price is `0`).  `none`
means the guard returned early and no label is drawn. -/
def TrendLinePrimitive.drawLabelInfo (d : TLDrawing) :
    Option (ℚ × JsSignedNum) :=
  if d.priceDifference.getD 0 = 0 ∨ d.startPoint = none then none
  else
    match d.priceDifference, d.startPoint with
    | some pd, some sp =>
      let startPrice := jsNum sp.price
      some (pd,
        if startPrice = 0 then (if 0 < pd then .posInf else .negInf)
        else .num (pd / startPrice * 100))
    | _, _ => none

/-! ## FibRetracementTool drawing data -/

/-- The Fibonacci retracement drawing data object. -/
structure FibDrawing where
  type : String
  startPoint : Option DrawPoint := none
  endPoint : Option DrawPoint := none
  levels : List FibRetracementTool.FibLevel := []
  options : JsOptions := {}
  timestamp : ℕ := 0
  priceRange : Option ℚ := none
  priceDifference : Option ℚ := none
  timeDifference : Option ℚ := none
  deriving DecidableEq

/-- The serialized form produced by `FibRetracementTool.toJSON`. -/
structure FibJSON where
  type : String
  startPoint : DomPoint
  endPoint : DomPoint
  levels : Option (List ℚ)
  options : JsOptions
  timestamp : ℕ
  deriving DecidableEq

namespace FibRetracementTool

/-- `FibRetracementTool.createDrawing`: anchors collapse to the starting
coordinates (domain only — this tool stores no screen coordinates at
creation) and the level table is computed immediately. -/
def createDrawing (coords : Coords) (options : JsOptions) (now : ℕ) : FibDrawing :=
  let drawingOptions := instOptions.spread options
  let startPoint : DrawPoint := { time := coords.time, price := coords.price }
  let endPoint : DrawPoint := { time := coords.time, price := coords.price }
  { type := "FibRetracement"
    startPoint := some startPoint
    endPoint := some endPoint
    levels := calculateFibLevels (some startPoint) (some endPoint) drawingOptions
    options := drawingOptions
    timestamp := now }

/-- `FibRetracementTool.updateDrawingData`: moves the trailing anchor
(with snapping) and recomputes the level table. -/
def updateDrawingData (drawing : FibDrawing) (coords : Coords) : FibDrawing :=
  match drawing.endPoint with
  | none => drawing
  | some _ =>
    let finalPrice : Option ℚ :=
      if drawing.options.snapToPrice.getD false = true ∧ coords.price ≠ none
      then coords.price.map snap2 else coords.price
    let ep : DrawPoint := { time := coords.time, price := finalPrice }
    { drawing with
      endPoint := some ep,
      levels := calculateFibLevels drawing.startPoint (some ep) drawing.options }

/-- `FibRetracementTool.finalizeDrawingData`: last update plus the price
range/difference fields used for hit testing. -/
def finalizeDrawingData (drawing : FibDrawing) (coords : Coords) : FibDrawing :=
  let d := updateDrawingData drawing coords
  match d.startPoint, d.endPoint with
  | some sp, some ep =>
    { d with
      priceRange := some |jsNum ep.price - jsNum sp.price|
      priceDifference := some (jsNum ep.price - jsNum sp.price)
      timeDifference := some (jsNum ep.time - jsNum sp.time) }
  | _, _ => d

/-- `FibRetracementTool.toJSON`: domain anchors, the configured ratio list,
the options bag and the timestamp.  `none` models the TypeError on a
missing anchor. -/
def toJSON (drawing : FibDrawing) : Option FibJSON :=
  match drawing.startPoint, drawing.endPoint with
  | some sp, some ep =>
    some { type := drawing.type
           startPoint := { time := sp.time, price := sp.price }
           endPoint := { time := ep.time, price := ep.price }
           levels := drawing.options.levels
           options := drawing.options
           timestamp := drawing.timestamp }
  | _, _ => none

/-- `FibRetracementTool.fromJSON`: rebuilds the drawing and recomputes the
level table from the anchors via `calculateFibLevels` (called without an
options argument, hence with the tool instance's default options); the
persisted `levels` entry is ignored. -/
def fromJSON (data : FibJSON)
    (coordinateMapper : Option ℚ → Option ℚ → Option ℚ × Option ℚ)
    (now : ℕ) : FibDrawing :=
  let screenStart := coordinateMapper data.startPoint.time data.startPoint.price
  let screenEnd := coordinateMapper data.endPoint.time data.endPoint.price
  let sp : DrawPoint := { time := data.startPoint.time, price := data.startPoint.price,
                          screenX := screenStart.1, screenY := screenStart.2 }
  let ep : DrawPoint := { time := data.endPoint.time, price := data.endPoint.price,
                          screenX := screenEnd.1, screenY := screenEnd.2 }
  { type := data.type
    startPoint := some sp
    endPoint := some ep
    options := instOptions.spread data.options
    timestamp := if data.timestamp ≠ 0 then data.timestamp else now
    levels := calculateFibLevels (some sp) (some ep) instOptions }

end FibRetracementTool

/-! ## EventBus

Listeners are abstracted by the identity of their callback (`cbId`), whether
invoking the callback throws, and the `once` flag.  `emit` is modelled as a
pure function returning the value `emit` returns, the bus state after all
executions, and the invocation log `(cbId, completed without throwing)` in
invocation order (for `async` emissions these executions happen after `emit`
has already returned). -/

structure BusListener where
  cbId : ℕ
  throws : Bool
  once : Bool
  deriving DecidableEq

/-- The `events` map of the bus: event name to listener list. -/
abbrev BusEvents := List (String × List BusListener)

/-- JS `String.prototype.toLowerCase` (character-wise lowering). -/
def jsToLower (s : String) : String := ⟨s.data.map Char.toLower⟩

/-- Generic JS `Map.get`. -/
def jsMapGet {α : Type} : List (String × α) → String → Option α
  | [], _ => none
  | (k', v) :: rest, k => if k' = k then some v else jsMapGet rest k

/-- Generic JS `Map.set`: replaces the value of an existing key, appends
otherwise (JS `Map` preserves insertion order). -/
def jsMapSet {α : Type} : List (String × α) → String → α → List (String × α)
  | [], k, v => [(k, v)]
  | (k', v') :: rest, k, v =>
    if k' = k then (k, v) :: rest else (k', v') :: jsMapSet rest k v

/-- Generic JS `Map.delete`. -/
def jsMapDelete {α : Type} : List (String × α) → String → List (String × α)
  | [], _ => []
  | (k', v') :: rest, k =>
    if k' = k then rest else (k', v') :: jsMapDelete rest k

namespace EventBus

/-- `listeners.splice(index, 1)` after `findIndex` on the callback: removes
the first listener with the given callback, if any. -/
def removeFirst : List BusListener → ℕ → List BusListener
  | [], _ => []
  | l :: rest, cbId => if l.cbId = cbId then rest else l :: removeFirst rest cbId

/-- `EventBus.off`: removes the first matching listener and deletes the
event entry when its listener list becomes empty. -/
def off (events : BusEvents) (eventName : String) (cbId : ℕ) : BusEvents :=
  match jsMapGet events eventName with
  | none => events
  | some listeners =>
    if (listeners.map (·.cbId)).contains cbId then
      let listeners' := removeFirst listeners cbId
      if listeners' = [] then jsMapDelete events eventName
      else jsMapSet events eventName listeners'
    else events

/-- Result of one `emit` call. -/
structure EmitResult where
  returned : ℕ
  events : BusEvents
  execs : List (ℕ × Bool)
  deriving DecidableEq

/-- `EventBus.emit`: iterates over a copy of the listener list; each callback
runs inside `try/catch`, so a throwing callback is logged and skipped without
stopping the iteration and without incrementing `notifiedCount`; `once`
listeners that completed are unsubscribed.  With `options.async` the
executions are deferred via `setTimeout` and `emit` returns the still-zero
`notifiedCount` immediately. -/
def emit (events : BusEvents) (eventName : String) (asyncOpt : Bool) : EmitResult :=
  match jsMapGet events eventName with
  | none => { returned := 0, events := events, execs := [] }
  | some listeners =>
    let final := listeners.foldl
      (fun (acc : ℕ × BusEvents) l =>
        if l.throws then acc
        else (acc.1 + 1, if l.once then off acc.2 eventName l.cbId else acc.2))
      (0, events)
    let execLog := listeners.map fun l => (l.cbId, !l.throws)
    if asyncOpt then { returned := 0, events := final.2, execs := execLog }
    else { returned := final.1, events := final.2, execs := execLog }

end EventBus

/-! ## DrawingManager (primitive-based variant)

The manager state carries, besides the source's own fields, ghost
observation logs: the `eventBus.emit` calls (`emitted`), the calls into the
host chart surface (`hostCalls`), the tool `activate`/`deactivate` calls
(`toolCalls`), and counters of actual navigation-lock acquisitions and
releases. -/

/-- A registered drawing tool, abstracted to its observable identity. -/
structure Tool where
  name : String
  cursor : String
  deriving DecidableEq

/-- The `TrendLineTool` instance registered under the key `"trendline"`. -/
def trendLineToolInst : Tool := { name := "TrendLine", cursor := "crosshair" }

/-- A value stored in the manager's `drawings` map.  Commit stores every
field; `importDrawings` spreads whatever the record supplies. -/
structure StoredDrawing where
  id : Option String := none
  tool : Option String := none
  data : Option TLDrawing := none
  primitive : Bool := false
  timestamp : Option ℕ := none

/-- Calls made into the host chart surface. -/
inductive HostCall where
  | applyOptions
  | attachPrimitive (drawingId : String)
  | detachPrimitive (drawingId : String)
  deriving DecidableEq

/-- Manager options as built in the constructor (defaults spread with the
caller's options; the values below are the defaults). -/
def dmDefaultOptions : JsOptions :=
  { lineWidth := some 2
    lineColor := some "#FF6B6B"
    fillColor := some "rgba(255, 107, 107, 0.1)"
    snapToPrice := some true
    snapToTime := some true
    enableUndo := some true
    maxDrawings := some 100 }

structure DMState where
  isActive : Bool := false
  currentTool : Option Tool := none
  isDrawing : Bool := false
  currentDrawing : Option TLDrawing := none
  drawings : List (String × StoredDrawing) := []
  tools : List (String × Tool) := [("trendline", trendLineToolInst)]
  options : JsOptions := dmDefaultOptions
  navigationLocked : Bool := false
  originalNavCached : Bool := true
  listenersAttached : Bool := false
  cursorStyle : String := "default"
  chartOk : Bool := true
  emitted : List (String × Option String) := []
  hostCalls : List HostCall := []
  toolCalls : List (String × String) := []
  acquireCount : ℕ := 0
  releaseCount : ℕ := 0

namespace DrawingManager

/-- `DrawingManager.disableNavigation`: guarded by the chart handle and the
`navigationLocked` flag, so a second call within a gesture is a no-op. -/
def disableNavigation (s : DMState) : DMState :=
  if ¬s.chartOk ∨ s.navigationLocked then s
  else
    { s with hostCalls := s.hostCalls ++ [.applyOptions],
             navigationLocked := true,
             acquireCount := s.acquireCount + 1 }

/-- `DrawingManager.restoreNavigation`: guarded symmetrically; reapplies the
cached navigation options when available and clears the flag. -/
def restoreNavigation (s : DMState) : DMState :=
  if ¬s.chartOk ∨ ¬s.navigationLocked then s
  else
    let s' := if s.originalNavCached
      then { s with hostCalls := s.hostCalls ++ [.applyOptions] } else s
    { s' with navigationLocked := false, releaseCount := s'.releaseCount + 1 }

/-- `DrawingManager.setActiveTool`: deactivates the prior tool (removing the
chart listeners and restoring navigation), then activates the new tool or
falls back to the idle configuration, emitting the corresponding signal. -/
def setActiveTool (s : DMState) (tool : Option Tool) : DMState :=
  let s₁ :=
    match s.currentTool with
    | some t =>
      let sa := { s with toolCalls := s.toolCalls ++ [("deactivate", t.name)],
                         listenersAttached := false }
      restoreNavigation sa
    | none => s
  let s₂ := { s₁ with currentTool := tool, isActive := tool.isSome }
  match tool with
  | some t =>
    { s₂ with
      toolCalls := s₂.toolCalls ++ [("activate", t.name)],
      cursorStyle := if t.cursor = "" then "crosshair" else t.cursor,
      listenersAttached := true,
      emitted := s₂.emitted ++ [("drawing-tool-activated", some t.name)] }
  | none =>
    { s₂ with
      cursorStyle := "default",
      listenersAttached := false,
      emitted := s₂.emitted ++ [("drawing-tool-deactivated", none)] }

/-- `DrawingManager.getToolInstance`: registry lookup (case-insensitive),
with lazy fallback construction for the trend-line tool only. -/
def getToolInstance (s : DMState) (toolName : String) : Option Tool × DMState :=
  if toolName = "" then (none, s)
  else
    match jsMapGet s.tools toolName <|> jsMapGet s.tools (jsToLower toolName) with
    | some t => (some t, s)
    | none =>
      if toolName = "trendline" ∨ toolName = "TrendLine" then
        (some trendLineToolInst,
         { s with tools := jsMapSet s.tools "trendline" trendLineToolInst })
      else (none, s)

/-- `DrawingManager.handleMouseDown`: begins a gesture when a tool is armed,
constructs the in-progress drawing (the registry only ever contains the
trend-line tool, whose `startDrawing` merges the tool options with the
manager options), locks navigation and announces the gesture. -/
def handleMouseDown (s : DMState) (coords : Coords) (now : ℕ) : DMState :=
  if ¬s.isActive ∨ s.currentTool = none then s
  else
    let cd := TrendLineTool.createDrawing coords
      (TrendLineTool.instOptions.spread s.options) now
    let s₁ := { s with isDrawing := true, currentDrawing := some cd }
    let s₂ := disableNavigation s₁
    { s₂ with emitted := s₂.emitted ++
        [("drawing-started", s.currentTool.map (·.name))] }

/-- `DrawingManager.handleMouseMove`: updates the trailing anchor while a
gesture is in progress (hover handling is a base-class no-op) and announces
the move. -/
def handleMouseMove (s : DMState) (coords : Coords) : DMState :=
  if ¬s.isActive ∨ s.currentTool = none then s
  else
    let s₁ :=
      match s.currentDrawing with
      | some cd =>
        if s.isDrawing
        then { s with currentDrawing := some (TrendLineTool.updateDrawingData cd coords) }
        else s
      | none => s
    { s₁ with emitted := s₁.emitted ++
        [("drawing-mouse-move", s.currentTool.map (·.name))] }

/-- Per-call host behaviour and fresh-name supply for a commit. -/
structure HostCfg where
  commitRepaintThrows : Bool := false
  freshId : String := "drawing_0"
  now : ℕ := 0

/-- `DrawingManager.handleMouseUp` — the commit path.  Finalizes the
in-progress drawing, creates and attaches a primitive for trend lines,
stores the entry, triggers the host repaint (`chart.applyOptions({})`,
which may throw — the `error` branch carries the state at the throw),
and only then clears the gesture state and restores navigation. -/
noncomputable def handleMouseUp (cfg : HostCfg) (s : DMState) (coords : Coords) :
    Except DMState DMState :=
  if ¬s.isDrawing ∨ s.currentDrawing.isNone then .ok s
  else
    match s.currentDrawing with
    | none => .ok s
    | some cd =>
      let finalized := TrendLineTool.finalizeDrawingData cd coords
      let s₁ := { s with currentDrawing := some finalized }
      match s₁.currentTool with
      | none => .error s₁
      | some tool =>
        let toolName := tool.name
        let primitive : Bool :=
          (toolName = "TrendLine" ∨ toolName = "trendline") ∧
            finalized.startPoint ≠ none ∧ finalized.endPoint ≠ none
        let commit : DMState → Except DMState DMState := fun st =>
          let st₁ := { st with isDrawing := false, currentDrawing := none }
          let st₂ := restoreNavigation st₁
          .ok { st₂ with
                emitted := st₂.emitted ++ [("drawing-completed", some toolName)] }
        if primitive then
          let entry : StoredDrawing :=
            { id := some cfg.freshId, tool := some toolName, data := some finalized,
              primitive := true, timestamp := some cfg.now }
          let s₂ := { s₁ with drawings := jsMapSet s₁.drawings cfg.freshId entry }
          let s₃ := { s₂ with
                      hostCalls := s₂.hostCalls ++ [HostCall.attachPrimitive cfg.freshId] }
          if cfg.commitRepaintThrows then .error s₃
          else commit { s₃ with hostCalls := s₃.hostCalls ++ [HostCall.applyOptions] }
        else commit s₁

/-- `DrawingManager.handleMouseLeave`: cancels an in-progress gesture,
discarding the drawing and restoring navigation. -/
def handleMouseLeave (s : DMState) : DMState :=
  if s.isDrawing ∧ s.currentDrawing.isSome then
    let s₁ := { s with isDrawing := false, currentDrawing := none }
    let s₂ := restoreNavigation s₁
    { s₂ with emitted := s₂.emitted ++
        [("drawing-cancelled", some ((s.currentTool.map (·.name)).getD "unknown"))] }
  else s

/-- `DrawingManager.clearAllDrawings`: detaches every primitive, empties the
collection, repaints and announces. -/
def clearAllDrawings (s : DMState) : DMState :=
  let detaches := s.drawings.filterMap fun kv =>
    if kv.2.primitive then some (HostCall.detachPrimitive kv.1) else none
  let s₁ := { s with
              hostCalls := s.hostCalls ++ detaches,
              drawings := ([] : List (String × StoredDrawing)),
              isDrawing := false,
              currentDrawing := none }
  let s₂ := { s₁ with hostCalls := s₁.hostCalls ++ [HostCall.applyOptions] }
  { s₂ with emitted := s₂.emitted ++ [("all-drawings-cleared", none)] }

/-- `DrawingManager.removeDrawing`: entirely guarded by `has(drawingId)` —
an absent id leaves the state untouched. -/
def removeDrawing (s : DMState) (drawingId : String) : DMState :=
  match jsMapGet s.drawings drawingId with
  | none => s
  | some d =>
    let s₁ := if d.primitive
      then { s with hostCalls := s.hostCalls ++ [HostCall.detachPrimitive drawingId] }
      else s
    let s₂ := { s₁ with drawings := jsMapDelete s₁.drawings drawingId }
    let s₃ := { s₂ with hostCalls := s₂.hostCalls ++ [HostCall.applyOptions] }
    { s₃ with emitted := s₃.emitted ++ [("drawing-removed", some drawingId)] }

/-- The record shape produced by `DrawingManager.exportDrawings`: the stored
`tool`, the stored `data` object verbatim, and the stored timestamp. -/
structure ExportRecord where
  tool : Option String
  data : Option TLDrawing
  timestamp : Option ℕ

/-- `DrawingManager.exportDrawings`. -/
def exportDrawings (s : DMState) : List ExportRecord :=
  s.drawings.map fun kv =>
    { tool := kv.2.tool, data := kv.2.data, timestamp := kv.2.timestamp }

/-- A (possibly malformed) record handed to `importDrawings`. -/
structure ImportRecord where
  tool : Option String := none
  data : Option TLDrawing := none
  timestamp : Option ℕ := none

/-- `DrawingManager.importDrawings`: stores `{id, ...record}` under a fresh
id for every record of the array — there is no per-record validation —
then repaints and announces the count. -/
def importDrawings (s : DMState) (recs : List ImportRecord) (supply : ℕ → String) :
    DMState :=
  let s₁ := recs.enum.foldl
    (fun st ir =>
      let entry : StoredDrawing :=
        { id := some (supply ir.1), tool := ir.2.tool, data := ir.2.data,
          primitive := false, timestamp := ir.2.timestamp }
      { st with drawings := jsMapSet st.drawings (supply ir.1) entry })
    s
  let s₂ := { s₁ with hostCalls := s₁.hostCalls ++ [HostCall.applyOptions] }
  { s₂ with
    emitted := s₂.emitted ++ [("drawings-imported", some (toString recs.length))] }

/-- `DrawingManager.destroy`: restores navigation, clears all drawings, and
resets every reference including the lock flag. -/
def destroy (s : DMState) : DMState :=
  let s₁ := restoreNavigation s
  let s₂ := clearAllDrawings s₁
  { s₂ with
    listenersAttached := false,
    drawings := ([] : List (String × StoredDrawing)),
    currentTool := none,
    currentDrawing := none,
    isActive := false,
    originalNavCached := false,
    navigationLocked := false }

end DrawingManager

/-! ## Toolbar (coupled with the manager through the event bus)

The toolbar's `drawing-tool-selected` / `drawing-tool-deselected` emissions
are handled synchronously by the manager's listeners, which resolve the tool
id in the registry and call `setActiveTool`. -/

structure SysState where
  toolbarTool : Option String := none
  mgr : DMState := {}

namespace Toolbar

/-- `Toolbar.selectTool` together with the manager's bus listeners: clicking
the already-selected tool emits a deselection (toggle-off); anything else
selects the new id and emits a selection carrying it. -/
def selectTool (sys : SysState) (toolId : String) : SysState :=
  if sys.toolbarTool = some toolId then
    { toolbarTool := none, mgr := DrawingManager.setActiveTool sys.mgr none }
  else
    { toolbarTool := some toolId,
      mgr := DrawingManager.setActiveTool
        (DrawingManager.getToolInstance sys.mgr toolId).2
        (DrawingManager.getToolInstance sys.mgr toolId).1 }

end Toolbar

/-! ## Sample inputs shared by the theorems -/

/-- A manager with the trend-line tool armed and no gesture in progress. -/
def armedState : DMState :=
  { isActive := true, currentTool := some trendLineToolInst,
    listenersAttached := true, cursorStyle := "crosshair" }

/-- Gesture start coordinates. -/
def coordsA : Coords := { time := some 1000, price := some 100, screenX := 10, screenY := 20 }

/-- Gesture end coordinates. -/
def coordsB : Coords := { time := some 2000, price := some 200, screenX := 110, screenY := 20 }

/-- Projection of the `error` branch of a JS computation. -/
def errState : Except DMState DMState → Option DMState
  | .error s => some s
  | .ok _ => none

/-- Projection of the `ok` branch of a JS computation. -/
def okState : Except DMState DMState → Option DMState
  | .ok s => some s
  | .error _ => none

/-! ## C2 — Fibonacci level prices -/

/-- The effective ratio list `options.levels || this.options.levels || []`. -/
def effectiveLevels (opts : JsOptions) : List ℚ :=
  (opts.levels <|> FibRetracementTool.instOptions.levels).getD []

/-- Every row of the computed level table pairs a configured ratio with the
price `s + (e - s) * l`. -/
theorem calculateFibLevels_map (s e : ℚ) (t₁ t₂ : Option ℚ) (opts : JsOptions) :
    (FibRetracementTool.calculateFibLevels
        (some { time := t₁, price := some s })
        (some { time := t₂, price := some e }) opts).map
      (fun lv => (lv.level, lv.price)) =
    (effectiveLevels opts).map (fun l => (l, s + (e - s) * l)) := by
  simp only [FibRetracementTool.calculateFibLevels, effectiveLevels,
    Option.some_orElse, List.map_map]
  apply List.map_congr_left
  intro l _
  simp only [Function.comp_apply, jsNum, Option.some_orElse, Option.getD_some]

/-- C2: for every start price `s`, end price `e` and configured ratio `l`,
the Fibonacci level price computed by `calculateFibLevels` is
`s + (e - s) * l`; in particular with start 100 and end 200 the default
table yields 150 at ratio 0.5, 100 at ratio 0 and 200 at ratio 1. -/
theorem fib_level_price_formula :
    (∀ (s e : ℚ) (t₁ t₂ : Option ℚ) (opts : JsOptions),
      (FibRetracementTool.calculateFibLevels
          (some { time := t₁, price := some s })
          (some { time := t₂, price := some e }) opts).map
        (fun lv => (lv.level, lv.price)) =
      (effectiveLevels opts).map (fun l => (l, s + (e - s) * l))) ∧
    (FibRetracementTool.calculateFibLevels
        (some { time := some 0, price := some 100 })
        (some { time := some 0, price := some 200 })
        FibRetracementTool.instOptions).map (fun lv => (lv.level, lv.price)) =
      [(0, 100), (236/1000, 1236/10), (382/1000, 1382/10), (1/2, 150),
       (618/1000, 1618/10), (786/1000, 1786/10), (1, 200)] := by
  refine ⟨calculateFibLevels_map, ?_⟩
  rw [calculateFibLevels_map]
  simp only [effectiveLevels, FibRetracementTool.instOptions,
    Option.some_orElse, Option.getD_some, List.map_cons, List.map_nil]
  norm_num

/-! ## C9 — removeDrawing with an absent id is a no-op -/

/-- C9: an id not present in the collection leaves the whole manager state
(collection, host calls, events) untouched; a present id detaches the
entry's primitive (when it has one), deletes the entry, repaints and emits
the removal event. -/
theorem removeDrawing_spec :
    (∀ (s : DMState) (id : String), jsMapGet s.drawings id = none →
      DrawingManager.removeDrawing s id = s) ∧
    (∀ (s : DMState) (id : String) (d : StoredDrawing),
      jsMapGet s.drawings id = some d →
      (DrawingManager.removeDrawing s id).drawings = jsMapDelete s.drawings id ∧
      (DrawingManager.removeDrawing s id).emitted =
        s.emitted ++ [("drawing-removed", some id)] ∧
      (DrawingManager.removeDrawing s id).hostCalls =
        s.hostCalls ++
          (if d.primitive then [HostCall.detachPrimitive id] else []) ++
          [HostCall.applyOptions]) := by
  constructor
  · intro s id h
    simp [DrawingManager.removeDrawing, h]
  · intro s id d h
    by_cases hp : d.primitive <;>
      simp [DrawingManager.removeDrawing, h, hp]

/-- The entry stored in `removeSample`. -/
def removeSampleEntry : StoredDrawing :=
  { id := some "a", tool := some "TrendLine", data := none,
    primitive := true, timestamp := some 1 }

/-- A one-entry collection used to exercise `removeDrawing`. -/
def removeSample : DMState := { drawings := [("a", removeSampleEntry)] }

/-- Witness for C9 at a concrete collection: "b" is absent and removing it
changes nothing; "a" is present and removing it deletes the entry. -/
theorem removeDrawing_spec_witness :
    (jsMapGet removeSample.drawings "b" = none ∧
      DrawingManager.removeDrawing removeSample "b" = removeSample) ∧
    (jsMapGet removeSample.drawings "a" = some removeSampleEntry ∧
      (DrawingManager.removeDrawing removeSample "a").drawings =
        jsMapDelete removeSample.drawings "a") :=
  ⟨⟨by simp [removeSample, jsMapGet],
    removeDrawing_spec.1 removeSample "b" (by simp [removeSample, jsMapGet])⟩,
   ⟨by simp [removeSample, jsMapGet],
    (removeDrawing_spec.2 removeSample "a" removeSampleEntry
      (by simp [removeSample, jsMapGet])).1⟩⟩

/-! ## C3 — importDrawings commits every record, malformed or not -/

/-- A well-formed import record. -/
def goodRecord (i : ℚ) : DrawingManager.ImportRecord :=
  let d : TLDrawing :=
    { type := "TrendLine"
      startPoint := some { time := some i, price := some 100 }
      endPoint := some { time := some (i + 1), price := some 200 } }
  { tool := some "TrendLine", data := some d, timestamp := some 1 }

/-- A malformed import record: data present but the start anchor missing. -/
def badRecord : DrawingManager.ImportRecord :=
  let d : TLDrawing :=
    { type := "TrendLine"
      startPoint := none
      endPoint := some { time := some 5, price := some 100 } }
  { tool := some "TrendLine", data := some d, timestamp := some 3 }

/-- A batch of 5 records whose third record has a missing anchor. -/
def importBatch5 : List DrawingManager.ImportRecord :=
  [goodRecord 1, goodRecord 2, badRecord, goodRecord 4, goodRecord 5]

/-- Fresh ids generated for the import (`generateDrawingId`). -/
def importIds : ℕ → String := fun i => "import" ++ toString i

/-- C3 failing input: importing the 5-record batch whose record 3 lacks its
start anchor commits all 5 records — `importDrawings` has no per-record
validation — so the collection ends with 5 entries, not the 4 the claim
requires (and no exception: the function is total). -/
theorem importDrawings_commits_malformed :
    importBatch5.length = 5 ∧
    (importBatch5[2]?).map (fun r => r.data.map (fun d => d.startPoint)) =
      some (some none) ∧
    (DrawingManager.importDrawings {} importBatch5 importIds).drawings.length = 5 ∧
    ¬((DrawingManager.importDrawings {} importBatch5 importIds).drawings.length = 4) := by
  exact ⟨by decide, by decide, by decide, by decide⟩

/-! ## C8 — percentage label at a zero start price -/

/-- A finalized trend line whose start anchor price is `0` and whose price
difference is `50`. -/
def zeroStartDrawing : TLDrawing :=
  { type := "TrendLine"
    startPoint := some { time := some 0, price := some 0,
                         screenX := some 0, screenY := some 0 }
    endPoint := some { time := some 10, price := some 50,
                       screenX := some 100, screenY := some 0 }
    priceDifference := some 50 }

/-- C8 failing input: with a zero start price and a non-zero price
difference the label IS drawn — the only early return is on a falsy
`priceDifference` (or missing start anchor) — and the percentage text
carries the IEEE infinity produced by the unguarded division. -/
theorem drawLabel_zero_start_price_renders :
    TrendLinePrimitive.drawLabelInfo zeroStartDrawing =
      some (50, JsSignedNum.posInf) ∧
    (∀ d : TLDrawing, TrendLinePrimitive.drawLabelInfo d = none ↔
      (d.priceDifference.getD 0 = 0 ∨ d.startPoint = none)) := by
  constructor
  · decide
  · intro d
    constructor
    · intro h
      by_contra hg
      push_neg at hg
      obtain ⟨hpd, hsp⟩ := hg
      rw [TrendLinePrimitive.drawLabelInfo, if_neg (by tauto)] at h
      match hm : d.priceDifference, hn : d.startPoint with
      | none, _ => exact hpd (by simp [hm])
      | some pd, none => exact hsp hn
      | some pd, some sp => simp [hm, hn] at h
    · intro h
      rw [TrendLinePrimitive.drawLabelInfo, if_pos h]

/-! ## C10 — EventBus emit -/

/-- A bus with a single well-behaved listener. -/
def asyncBusSample : BusEvents :=
  [("evt", [{ cbId := 1, throws := false, once := false }])]

/-- C10 counterexample: with the `async` option, `emit` returns before the
deferred executions run, so it returns `0` even though the single listener
completes without throwing — the returned value is not the count of
listeners that completed without throwing. -/
theorem emit_async_return_mismatch :
    (EventBus.emit asyncBusSample "evt" true).returned = 0 ∧
    ((EventBus.emit asyncBusSample "evt" true).execs.filter (fun e => e.2)).length = 1 ∧
    ¬((EventBus.emit asyncBusSample "evt" true).returned =
      ((EventBus.emit asyncBusSample "evt" true).execs.filter (fun e => e.2)).length) := by
  refine ⟨?_, ?_, ?_⟩ <;>
    simp [EventBus.emit, asyncBusSample, jsMapGet]

/-- The running count inside `emit` ends at the number of listeners whose
callback completed without throwing. -/
theorem emit_foldl_count (eventName : String) (ls : List BusListener)
    (n : ℕ) (bus : BusEvents) :
    (ls.foldl
      (fun (acc : ℕ × BusEvents) l =>
        if l.throws then acc
        else (acc.1 + 1, if l.once then EventBus.off acc.2 eventName l.cbId else acc.2))
      (n, bus)).1 = n + (ls.filter (fun l => !l.throws)).length := by
  induction ls generalizing n bus with
  | nil => simp
  | cons l rest ih =>
    by_cases hl : l.throws <;>
      simp [hl, ih, Nat.add_assoc, Nat.add_comm 1]

/-- C10 amended: for a synchronous emission every subscribed listener is
invoked in order (throwing callbacks are caught, logged and skipped without
stopping the iteration) and `emit` returns exactly the count of listeners
that completed without throwing; an `async` emission still eventually runs
every listener the same way but returns `0`. -/
theorem emit_spec (events : BusEvents) (name : String) (ls : List BusListener)
    (h : jsMapGet events name = some ls) :
    (EventBus.emit events name false).execs = ls.map (fun l => (l.cbId, !l.throws)) ∧
    (EventBus.emit events name false).returned =
      (ls.filter (fun l => !l.throws)).length ∧
    (EventBus.emit events name true).execs = ls.map (fun l => (l.cbId, !l.throws)) ∧
    (EventBus.emit events name true).returned = 0 := by
  refine ⟨?_, ?_, ?_, ?_⟩ <;>
    simp [EventBus.emit, h, emit_foldl_count]

/-- A bus with one throwing and one well-behaved listener. -/
def mixedBusSample : BusEvents :=
  [("evt", [{ cbId := 1, throws := true, once := false },
            { cbId := 2, throws := false, once := true }])]

/-- Witness for the amended C10 at a concrete bus: both listeners are
invoked, the throwing one is skipped from the count, and the sync return
value is 1. -/
theorem emit_spec_witness :
    jsMapGet mixedBusSample "evt" =
      some [{ cbId := 1, throws := true, once := false },
            { cbId := 2, throws := false, once := true }] ∧
    (EventBus.emit mixedBusSample "evt" false).execs = [(1, false), (2, true)] ∧
    (EventBus.emit mixedBusSample "evt" false).returned = 1 :=
  ⟨by decide,
   by
    have h := emit_spec mixedBusSample "evt"
      [{ cbId := 1, throws := true, once := false },
       { cbId := 2, throws := false, once := true }] (by decide)
    exact h.1.trans (by decide),
   by
    have h := emit_spec mixedBusSample "evt"
      [{ cbId := 1, throws := true, once := false },
       { cbId := 2, throws := false, once := true }] (by decide)
    exact h.2.1.trans (by decide)⟩

/-! ## C1 — navigation lock across the gesture exit paths -/

/-- Host behaviour for a commit whose repaint (`chart.applyOptions({})`)
throws. -/
def cfgThrow : DrawingManager.HostCfg :=
  { commitRepaintThrows := true, freshId := "d1", now := 7 }

/-- C1 failing input: a trend-line gesture whose commit-time host repaint
throws.  Pointer-down acquires the lock exactly once; the throwing repaint
aborts `handleMouseUp` before `restoreNavigation` is reached, so the handler
ends in the `error` branch with `navigationLocked` still `true`, zero
releases, and the gesture flags still set. -/
theorem navigation_lock_leaks_on_throwing_repaint :
    (DrawingManager.handleMouseDown armedState coordsA 5).navigationLocked = true ∧
    (DrawingManager.handleMouseDown armedState coordsA 5).acquireCount = 1 ∧
    (errState (DrawingManager.handleMouseUp cfgThrow
        (DrawingManager.handleMouseDown armedState coordsA 5) coordsB)).map
      (fun st => (st.navigationLocked, st.releaseCount, st.isDrawing)) =
      some (true, 0, true) := by
  refine ⟨by decide, by decide, ?_⟩
  rfl

/-! ## C4 — what the export operation serializes -/

/-- A full gesture (pointer-down at `coordsA`, pointer-up at `coordsB`) with
a well-behaved host. -/
noncomputable def committedResult : Except DMState DMState :=
  DrawingManager.handleMouseUp { commitRepaintThrows := false, freshId := "d1", now := 7 }
    (DrawingManager.handleMouseDown armedState coordsA 5) coordsB

/-- The manager state after the committed gesture. -/
noncomputable def committedState : DMState := (okState committedResult).getD {}

/-- The claim's property: no exported drawing carries a screen coordinate. -/
def exportOmitsScreenCoords (recs : List DrawingManager.ExportRecord) : Prop :=
  ∀ r ∈ recs, ∀ d : TLDrawing, r.data = some d →
    (∀ p : DrawPoint, d.startPoint = some p → p.screenX = none ∧ p.screenY = none) ∧
    (∀ p : DrawPoint, d.endPoint = some p → p.screenX = none ∧ p.screenY = none)

/-- The anchors' screen coordinates of every exported record. -/
def exportScreenXs (recs : List DrawingManager.ExportRecord) :
    List (Option (Option (Option ℚ))) :=
  recs.map fun r => r.data.map (fun d => d.startPoint.map DrawPoint.screenX)

/-- C4 counterexample: the drawing committed by the gesture is exported with
its start anchor's `screenX = 10` still present — `exportDrawings` returns
the stored `data` object verbatim, so screen coordinates do appear in the
exported representation. -/
theorem export_contains_screen_coords :
    exportScreenXs (DrawingManager.exportDrawings committedState) =
      [some (some (some 10))] ∧
    ¬ exportOmitsScreenCoords (DrawingManager.exportDrawings committedState) := by
  have hproj : exportScreenXs (DrawingManager.exportDrawings committedState) =
      [some (some (some 10))] := by rfl
  refine ⟨hproj, ?_⟩
  intro h
  match hexp : DrawingManager.exportDrawings committedState with
  | [] =>
    rw [hexp] at hproj
    simp [exportScreenXs] at hproj
  | r :: rest =>
    rw [hexp] at h hproj
    rw [exportScreenXs] at hproj
    simp only [List.map_cons, List.cons.injEq] at hproj
    obtain ⟨h1, -⟩ := hproj
    match hd : r.data with
    | none => rw [hd] at h1; simp at h1
    | some d =>
      rw [hd] at h1
      simp at h1
      match hsp : d.startPoint with
      | none => rw [hsp] at h1; simp at h1
      | some p =>
        rw [hsp] at h1
        simp at h1
        have hnone := ((h r (List.mem_cons_self r rest) d hd).1 p hsp).1
        rw [hnone] at h1
        exact Option.noConfusion h1

/-- C4 amended: `exportDrawings` maps each stored entry to
`{tool, data, timestamp}` with the in-memory `data` object (screen
coordinates included) unchanged, while the tool-level `toJSON` — which the
export path never calls — projects each anchor to `{time, price}` only. -/
theorem export_amended_spec :
    (∀ s : DMState, DrawingManager.exportDrawings s = s.drawings.map fun kv =>
      { tool := kv.2.tool, data := kv.2.data, timestamp := kv.2.timestamp }) ∧
    (∀ (ty : String) (sp ep : DrawPoint) (opts : JsOptions) (ts : ℕ)
      (ll an : Option ℝ) (sl pd td : Option ℚ),
      TrendLineTool.toJSON
        { type := ty, startPoint := some sp, endPoint := some ep, options := opts,
          timestamp := ts, lineLength := ll, angle := an, slope := sl,
          priceDifference := pd, timeDifference := td } =
      some { type := ty, startPoint := { time := sp.time, price := sp.price },
             endPoint := { time := ep.time, price := ep.price },
             options := opts, timestamp := ts }) := by
  exact ⟨fun s => rfl, fun ty sp ep opts ts ll an sl pd td => rfl⟩

/-! ## C5 — tool selection -/

/-- System with the trend-line tool selected in both toolbar and manager. -/
def sysA : SysState := { toolbarTool := some "trendline", mgr := armedState }

/-- C5 counterexample: selecting a *different* tool id that the manager's
registry cannot resolve (`"horizontal"` — one of the three toolbar buttons)
deactivates the prior tool but does not activate the new one: the manager
ends Idle with only a deactivation signal. -/
theorem selectTool_unregistered_not_activated :
    sysA.toolbarTool = some "trendline" ∧
    (Toolbar.selectTool sysA "horizontal").toolbarTool = some "horizontal" ∧
    (Toolbar.selectTool sysA "horizontal").mgr.currentTool = none ∧
    (Toolbar.selectTool sysA "horizontal").mgr.isActive = false ∧
    (Toolbar.selectTool sysA "horizontal").mgr.emitted =
      [("drawing-tool-deactivated", none)] ∧
    (Toolbar.selectTool sysA "horizontal").mgr.toolCalls =
      [("deactivate", "TrendLine")] := by
  refine ⟨rfl, ?_, ?_, ?_, ?_, ?_⟩ <;> decide

/-- `getToolInstance` only ever touches the tool registry. -/
theorem getToolInstance_preserves (s : DMState) (n : String) :
    (DrawingManager.getToolInstance s n).2.currentTool = s.currentTool ∧
    (DrawingManager.getToolInstance s n).2.isActive = s.isActive ∧
    (DrawingManager.getToolInstance s n).2.emitted = s.emitted ∧
    (DrawingManager.getToolInstance s n).2.toolCalls = s.toolCalls := by
  rw [DrawingManager.getToolInstance]
  split
  · exact ⟨rfl, rfl, rfl, rfl⟩
  · split
    · exact ⟨rfl, rfl, rfl, rfl⟩
    · split
      · exact ⟨rfl, rfl, rfl, rfl⟩
      · exact ⟨rfl, rfl, rfl, rfl⟩

/-- `restoreNavigation` never changes the current tool. -/
@[simp] theorem restoreNavigation_currentTool (s : DMState) :
    (DrawingManager.restoreNavigation s).currentTool = s.currentTool := by
  rw [DrawingManager.restoreNavigation]
  split
  · rfl
  · by_cases hc : s.originalNavCached = true <;> simp [hc]

/-- `restoreNavigation` never changes the activity flag. -/
@[simp] theorem restoreNavigation_isActive (s : DMState) :
    (DrawingManager.restoreNavigation s).isActive = s.isActive := by
  rw [DrawingManager.restoreNavigation]
  split
  · rfl
  · by_cases hc : s.originalNavCached = true <;> simp [hc]

/-- `restoreNavigation` emits no event. -/
@[simp] theorem restoreNavigation_emitted (s : DMState) :
    (DrawingManager.restoreNavigation s).emitted = s.emitted := by
  rw [DrawingManager.restoreNavigation]
  split
  · rfl
  · by_cases hc : s.originalNavCached = true <;> simp [hc]

/-- `restoreNavigation` performs no tool call. -/
@[simp] theorem restoreNavigation_toolCalls (s : DMState) :
    (DrawingManager.restoreNavigation s).toolCalls = s.toolCalls := by
  rw [DrawingManager.restoreNavigation]
  split
  · rfl
  · by_cases hc : s.originalNavCached = true <;> simp [hc]

/-- Deactivation path of `setActiveTool`: the manager ends Idle, the prior
tool (when present) receives a `deactivate` call, and the deactivation
signal is emitted. -/
theorem setActiveTool_none_fields (s : DMState) :
    (DrawingManager.setActiveTool s none).currentTool = none ∧
    (DrawingManager.setActiveTool s none).isActive = false ∧
    (DrawingManager.setActiveTool s none).emitted =
      s.emitted ++ [("drawing-tool-deactivated", none)] ∧
    (DrawingManager.setActiveTool s none).toolCalls =
      s.toolCalls ++
        (match s.currentTool with
         | some p => [("deactivate", p.name)]
         | none => []) := by
  rw [DrawingManager.setActiveTool]
  cases hcur : s.currentTool with
  | none => simp
  | some t => simp [hcur]

/-- Activation path of `setActiveTool` for a resolved tool. -/
theorem setActiveTool_some_fields (s : DMState) (t : Tool) :
    (DrawingManager.setActiveTool s (some t)).currentTool = some t ∧
    (DrawingManager.setActiveTool s (some t)).isActive = true ∧
    (DrawingManager.setActiveTool s (some t)).emitted =
      s.emitted ++ [("drawing-tool-activated", some t.name)] ∧
    (DrawingManager.setActiveTool s (some t)).toolCalls =
      s.toolCalls ++
        (match s.currentTool with
         | some p => [("deactivate", p.name)]
         | none => []) ++ [("activate", t.name)] := by
  rw [DrawingManager.setActiveTool]
  cases hcur : s.currentTool with
  | none => simp
  | some p => simp [hcur]

/-- C5 amended: re-selecting the active toolbar tool is a toggle-off — the
manager ends Idle (no current tool, inactive) and emits the deactivation
signal; selecting a different tool id that the registry resolves deactivates
the prior tool (when there is one) and activates the resolved tool, emitting
the activation signal.  (For toolbar ids with no registered tool instance
the manager is left Idle instead — see the counterexample.) -/
theorem selectTool_spec :
    (∀ (sys : SysState) (t : String), sys.toolbarTool = some t →
      (Toolbar.selectTool sys t).toolbarTool = none ∧
      (Toolbar.selectTool sys t).mgr.currentTool = none ∧
      (Toolbar.selectTool sys t).mgr.isActive = false ∧
      (Toolbar.selectTool sys t).mgr.emitted =
        sys.mgr.emitted ++ [("drawing-tool-deactivated", none)]) ∧
    (∀ (sys : SysState) (toolId : String) (tool : Tool),
      sys.toolbarTool ≠ some toolId →
      (DrawingManager.getToolInstance sys.mgr toolId).1 = some tool →
      (Toolbar.selectTool sys toolId).toolbarTool = some toolId ∧
      (Toolbar.selectTool sys toolId).mgr.currentTool = some tool ∧
      (Toolbar.selectTool sys toolId).mgr.isActive = true ∧
      (Toolbar.selectTool sys toolId).mgr.emitted =
        sys.mgr.emitted ++ [("drawing-tool-activated", some tool.name)] ∧
      (Toolbar.selectTool sys toolId).mgr.toolCalls =
        sys.mgr.toolCalls ++
          (match sys.mgr.currentTool with
           | some p => [("deactivate", p.name)]
           | none => []) ++ [("activate", tool.name)]) := by
  constructor
  · intro sys t ht
    rw [Toolbar.selectTool, if_pos ht]
    obtain ⟨h1, h2, h3, -⟩ := setActiveTool_none_fields sys.mgr
    exact ⟨rfl, h1, h2, h3⟩
  · intro sys toolId tool hne hres
    rw [Toolbar.selectTool, if_neg hne]
    obtain ⟨hc, -, he, htc⟩ := getToolInstance_preserves sys.mgr toolId
    rw [hres]
    obtain ⟨f1, f2, f3, f4⟩ :=
      setActiveTool_some_fields (DrawingManager.getToolInstance sys.mgr toolId).2 tool
    rw [hc] at f4
    rw [he] at f3
    rw [htc] at f4
    exact ⟨rfl, f1, f2, f3, f4⟩

/-- System with nothing selected and a fresh manager. -/
def sysB : SysState := {}

/-- Witness for C5 at concrete inputs: toggling off `"trendline"` in `sysA`
and selecting `"trendline"` from the idle `sysB`. -/
theorem selectTool_spec_witness :
    (sysA.toolbarTool = some "trendline" ∧
      (Toolbar.selectTool sysA "trendline").mgr.currentTool = none ∧
      (Toolbar.selectTool sysA "trendline").mgr.isActive = false) ∧
    (sysB.toolbarTool ≠ some "trendline" ∧
      (DrawingManager.getToolInstance sysB.mgr "trendline").1 = some trendLineToolInst ∧
      (Toolbar.selectTool sysB "trendline").mgr.currentTool = some trendLineToolInst ∧
      (Toolbar.selectTool sysB "trendline").mgr.isActive = true) :=
  ⟨⟨by decide,
    ((selectTool_spec.1 sysA "trendline" (by decide)).2.1),
    ((selectTool_spec.1 sysA "trendline" (by decide)).2.2.1)⟩,
   ⟨by decide, by decide,
    (selectTool_spec.2 sysB "trendline" trendLineToolInst (by decide) (by decide)).2.1,
    (selectTool_spec.2 sysB "trendline" trendLineToolInst (by decide) (by decide)).2.2.1⟩⟩

/-! ## C6 — serialization round trip -/

/-- A concrete coordinate mapper used for deserialization. -/
def mapperC : Option ℚ → Option ℚ → Option ℚ × Option ℚ := fun t p => (t, p)

/-- The drawing produced by a finalized gesture from `coordsA` to
`coordsB`. -/
noncomputable def d6 : TLDrawing :=
  TrendLineTool.finalizeDrawingData
    (TrendLineTool.createDrawing coordsA
      (TrendLineTool.instOptions.spread dmDefaultOptions) 5) coordsB

/-- C6 counterexample: serializing and deserializing the finalized trend
line `d6` yields a drawing with *no* derived fields — `fromJSON` recomputes
nothing — while independently recomputing from the same anchors (as `d6`'s
own finalization did) does produce them; in particular the price difference
`some 100` is lost. -/
theorem trend_roundtrip_loses_derived :
    ∃ j, TrendLineTool.toJSON d6 = some j ∧
      (TrendLineTool.fromJSON j mapperC 9).lineLength = none ∧
      (TrendLineTool.fromJSON j mapperC 9).angle = none ∧
      (TrendLineTool.fromJSON j mapperC 9).slope = none ∧
      (TrendLineTool.fromJSON j mapperC 9).priceDifference = none ∧
      (TrendLineTool.fromJSON j mapperC 9).timeDifference = none ∧
      d6.priceDifference = some 100 ∧
      d6.lineLength.isSome = true := by
  refine ⟨_, rfl, rfl, rfl, rfl, rfl, rfl, ?_, rfl⟩
  show (TrendLineTool.finalizeDrawingData _ coordsB).priceDifference = some 100
  simp only [d6, TrendLineTool.finalizeDrawingData, TrendLineTool.updateDrawingData,
    TrendLineTool.createDrawing, TrendLineTool.instOptions, dmDefaultOptions,
    JsOptions.spread, coordsA, coordsB, jsNum, Option.some_orElse]
  norm_num [snap2, jsRound]

/-- `(b <|> a) <|> a = b <|> a` — the absorption law behind re-merging an
already-merged options bag. -/
theorem orElse_absorb {α : Type} (a b : Option α) : ((b <|> a) <|> a) = (b <|> a) := by
  cases b <;> cases a <;> rfl

/-- C6 amended: `deserialize(serialize(d))` preserves anchors (time/price)
and the style bag (re-merged over the tool defaults, which absorbs for any
bag already produced by a tool merge); the Fibonacci level table is
recomputed from the deserialized anchors with the tool's default options
and the persisted level list is ignored entirely; the TrendLine derived
fields, however, are not recomputed — they are simply absent after
deserialization. -/
theorem roundtrip_recompute_spec :
    (∀ (ty : String) (sp ep : DrawPoint) (opts : JsOptions) (ts : ℕ)
       (ll an : Option ℝ) (sl pd td : Option ℚ)
       (mapper : Option ℚ → Option ℚ → Option ℚ × Option ℚ) (now : ℕ),
      ∃ rt : TLDrawing,
        (TrendLineTool.toJSON
          { type := ty, startPoint := some sp, endPoint := some ep,
            options := opts, timestamp := ts, lineLength := ll, angle := an,
            slope := sl, priceDifference := pd, timeDifference := td }).map
          (fun j => TrendLineTool.fromJSON j mapper now) = some rt ∧
        rt.startPoint.map (fun p => (p.time, p.price)) = some (sp.time, sp.price) ∧
        rt.endPoint.map (fun p => (p.time, p.price)) = some (ep.time, ep.price) ∧
        rt.options = JsOptions.spread TrendLineTool.instOptions opts ∧
        rt.lineLength = none ∧ rt.angle = none ∧ rt.slope = none ∧
        rt.priceDifference = none ∧ rt.timeDifference = none) ∧
    (∀ a b : JsOptions, JsOptions.spread a (JsOptions.spread a b) =
      JsOptions.spread a b) ∧
    (∀ (ty : String) (sp ep : DrawPoint) (lvs : List FibRetracementTool.FibLevel)
       (opts : JsOptions) (ts : ℕ) (pr pd td : Option ℚ)
       (mapper : Option ℚ → Option ℚ → Option ℚ × Option ℚ) (now : ℕ),
      ∃ rt : FibDrawing,
        (FibRetracementTool.toJSON
          { type := ty, startPoint := some sp, endPoint := some ep, levels := lvs,
            options := opts, timestamp := ts, priceRange := pr,
            priceDifference := pd, timeDifference := td }).map
          (fun j => FibRetracementTool.fromJSON j mapper now) = some rt ∧
        rt.startPoint.map (fun p => (p.time, p.price)) = some (sp.time, sp.price) ∧
        rt.endPoint.map (fun p => (p.time, p.price)) = some (ep.time, ep.price) ∧
        rt.options = JsOptions.spread FibRetracementTool.instOptions opts ∧
        rt.levels = FibRetracementTool.calculateFibLevels rt.startPoint rt.endPoint
          FibRetracementTool.instOptions) ∧
    (∀ (j : FibJSON) (lvs : Option (List ℚ))
       (mapper : Option ℚ → Option ℚ → Option ℚ × Option ℚ) (now : ℕ),
      FibRetracementTool.fromJSON { j with levels := lvs } mapper now =
        FibRetracementTool.fromJSON j mapper now) := by
  refine ⟨?_, ?_, ?_, ?_⟩
  · intro ty sp ep opts ts ll an sl pd td mapper now
    exact ⟨_, rfl, rfl, rfl, rfl, rfl, rfl, rfl, rfl, rfl⟩
  · intro a b
    cases a; cases b
    simp [JsOptions.spread, orElse_absorb]
  · intro ty sp ep lvs opts ts pr pd td mapper now
    exact ⟨_, rfl, rfl, rfl, rfl, rfl⟩
  · intro j lvs mapper now
    rfl

/-! ## C7 — TrendLine hit testing

`pointToLineDistance` clamps the projection parameter to the segment; the
three lemmas below show the clamped point minimizes the squared distance
over the segment, which justifies reading the code's formula as the true
point-to-segment distance. -/

/-- Below the segment's parameter range the start point is closest. -/
theorem quad_min_left (a b c d t : ℝ) (ht0 : 0 ≤ t) (hdot : a * c + b * d ≤ 0) :
    a ^ 2 + b ^ 2 ≤ (a - t * c) ^ 2 + (b - t * d) ^ 2 := by
  nlinarith [mul_nonneg ht0 (neg_nonneg.2 hdot), sq_nonneg (t * c), sq_nonneg (t * d)]

/-- Beyond the segment's parameter range the end point is closest. -/
theorem quad_min_right (a b c d t : ℝ) (ht1 : t ≤ 1)
    (hdot : c ^ 2 + d ^ 2 ≤ a * c + b * d) :
    (a - c) ^ 2 + (b - d) ^ 2 ≤ (a - t * c) ^ 2 + (b - t * d) ^ 2 := by
  have h1 : 0 ≤ 1 - t := by linarith
  have h2 : 0 ≤ 2 * (a * c + b * d) - (t + 1) * (c ^ 2 + d ^ 2) := by
    nlinarith [mul_nonneg h1 (add_nonneg (sq_nonneg c) (sq_nonneg d))]
  nlinarith [mul_nonneg h1 h2]

/-- Inside the parameter range the orthogonal projection is closest. -/
theorem quad_min_mid (a b c d t : ℝ) (hlen : c ^ 2 + d ^ 2 ≠ 0) :
    (a - (a * c + b * d) / (c ^ 2 + d ^ 2) * c) ^ 2 +
      (b - (a * c + b * d) / (c ^ 2 + d ^ 2) * d) ^ 2 ≤
    (a - t * c) ^ 2 + (b - t * d) ^ 2 := by
  have hlen' : 0 < c ^ 2 + d ^ 2 := lt_of_le_of_ne (by positivity) (Ne.symm hlen)
  have key : (a - t * c) ^ 2 + (b - t * d) ^ 2 -
      ((a - (a * c + b * d) / (c ^ 2 + d ^ 2) * c) ^ 2 +
       (b - (a * c + b * d) / (c ^ 2 + d ^ 2) * d) ^ 2) =
      ((c ^ 2 + d ^ 2) * t - (a * c + b * d)) ^ 2 / (c ^ 2 + d ^ 2) := by
    field_simp
    ring
  linarith [key,
    div_nonneg (sq_nonneg ((c ^ 2 + d ^ 2) * t - (a * c + b * d))) hlen'.le]

/-- `√x ≤ T ↔ x ≤ T²` for nonnegative `x`, `T`. -/
theorem sqrt_le_iff_sq_le (x T : ℝ) (hx : 0 ≤ x) (hT : 0 ≤ T) :
    Real.sqrt x ≤ T ↔ x ≤ T ^ 2 := by
  constructor
  · intro h
    nlinarith [Real.sq_sqrt hx, Real.sqrt_nonneg x]
  · intro h
    calc Real.sqrt x ≤ Real.sqrt (T ^ 2) := Real.sqrt_le_sqrt h
    _ = T := Real.sqrt_sq hT

/-- The projection parameter, written out. -/
theorem pointToLineParam_eq (px py x1 y1 x2 y2 : ℚ) :
    TrendLineTool.pointToLineParam px py x1 y1 x2 y2 =
      if ((x2 - x1) * (x2 - x1) + (y2 - y1) * (y2 - y1)) ≠ 0 then
        ((px - x1) * (x2 - x1) + (py - y1) * (y2 - y1)) /
          ((x2 - x1) * (x2 - x1) + (y2 - y1) * (y2 - y1))
      else -1 := rfl

/-- The clamped point is realized by a parameter in `[0, 1]`, i.e. it lies
on the segment. -/
theorem pointToLineNearest_mem (px py x1 y1 x2 y2 : ℚ) :
    ∃ t : ℝ, 0 ≤ t ∧ t ≤ 1 ∧
      ((px : ℝ) - ((x1 : ℝ) + t * ((x2 : ℝ) - (x1 : ℝ)))) =
        ((px - (TrendLineTool.pointToLineNearest px py x1 y1 x2 y2).1 : ℚ) : ℝ) ∧
      ((py : ℝ) - ((y1 : ℝ) + t * ((y2 : ℝ) - (y1 : ℝ)))) =
        ((py - (TrendLineTool.pointToLineNearest px py x1 y1 x2 y2).2 : ℚ) : ℝ) := by
  rw [TrendLineTool.pointToLineNearest]
  by_cases h0 : TrendLineTool.pointToLineParam px py x1 y1 x2 y2 < 0
  · rw [if_pos h0]
    exact ⟨0, le_refl 0, zero_le_one, by push_cast; ring, by push_cast; ring⟩
  · rw [if_neg h0]
    by_cases h1 : 1 < TrendLineTool.pointToLineParam px py x1 y1 x2 y2
    · rw [if_pos h1]
      exact ⟨1, zero_le_one, le_refl 1, by push_cast; ring, by push_cast; ring⟩
    · rw [if_neg h1]
      refine ⟨((TrendLineTool.pointToLineParam px py x1 y1 x2 y2 : ℚ) : ℝ),
        ?_, ?_, by push_cast; ring, by push_cast; ring⟩
      · exact_mod_cast not_lt.1 h0
      · exact_mod_cast not_lt.1 h1

/-- The clamped point minimizes the squared distance over the segment. -/
theorem pointToLineNearest_min (px py x1 y1 x2 y2 : ℚ) (t : ℝ)
    (ht0 : 0 ≤ t) (ht1 : t ≤ 1) :
    ((px - (TrendLineTool.pointToLineNearest px py x1 y1 x2 y2).1 : ℚ) : ℝ) ^ 2 +
      ((py - (TrendLineTool.pointToLineNearest px py x1 y1 x2 y2).2 : ℚ) : ℝ) ^ 2 ≤
    ((px : ℝ) - ((x1 : ℝ) + t * ((x2 : ℝ) - (x1 : ℝ)))) ^ 2 +
      ((py : ℝ) - ((y1 : ℝ) + t * ((y2 : ℝ) - (y1 : ℝ)))) ^ 2 := by
  rw [TrendLineTool.pointToLineNearest]
  by_cases hlen : ((x2 - x1) * (x2 - x1) + (y2 - y1) * (y2 - y1)) = 0
  · obtain ⟨hc, hd⟩ := mul_self_add_mul_self_eq_zero.mp hlen
    have hparam : TrendLineTool.pointToLineParam px py x1 y1 x2 y2 = -1 := by
      rw [pointToLineParam_eq, if_neg (not_not_intro hlen)]
    rw [hparam, if_pos (by norm_num : (-1 : ℚ) < 0)]
    have hx2 : x2 = x1 := by linarith [sub_eq_zero.mp hc]
    have hy2 : y2 = y1 := by linarith [sub_eq_zero.mp hd]
    subst hx2; subst hy2
    apply le_of_eq
    push_cast
    ring
  · have hlen' : 0 < (x2 - x1) * (x2 - x1) + (y2 - y1) * (y2 - y1) :=
      lt_of_le_of_ne (add_nonneg (mul_self_nonneg _) (mul_self_nonneg _))
        (Ne.symm hlen)
    have hparam : TrendLineTool.pointToLineParam px py x1 y1 x2 y2 =
        ((px - x1) * (x2 - x1) + (py - y1) * (y2 - y1)) /
          ((x2 - x1) * (x2 - x1) + (y2 - y1) * (y2 - y1)) := by
      rw [pointToLineParam_eq, if_pos hlen]
    by_cases h0 : TrendLineTool.pointToLineParam px py x1 y1 x2 y2 < 0
    · rw [if_pos h0]
      have hdot : (px - x1) * (x2 - x1) + (py - y1) * (y2 - y1) < 0 := by
        by_contra hge
        rw [hparam] at h0
        exact absurd (div_nonneg (not_lt.1 hge) hlen'.le) (not_le.2 h0)
      have hdotR : ((px : ℝ) - x1) * ((x2 : ℝ) - x1) +
          ((py : ℝ) - y1) * ((y2 : ℝ) - y1) < 0 := by exact_mod_cast hdot
      have key := quad_min_left ((px : ℝ) - x1) ((py : ℝ) - y1)
        ((x2 : ℝ) - x1) ((y2 : ℝ) - y1) t ht0 (le_of_lt hdotR)
      push_cast
      nlinarith [key]
    · rw [if_neg h0]
      by_cases h1 : 1 < TrendLineTool.pointToLineParam px py x1 y1 x2 y2
      · rw [if_pos h1]
        have hdot : (x2 - x1) * (x2 - x1) + (y2 - y1) * (y2 - y1) <
            (px - x1) * (x2 - x1) + (py - y1) * (y2 - y1) := by
          rw [hparam] at h1
          exact (one_lt_div hlen').mp h1
        have hdotR : ((x2 : ℝ) - x1) * ((x2 : ℝ) - x1) +
            ((y2 : ℝ) - y1) * ((y2 : ℝ) - y1) <
            ((px : ℝ) - x1) * ((x2 : ℝ) - x1) +
              ((py : ℝ) - y1) * ((y2 : ℝ) - y1) := by exact_mod_cast hdot
        have key := quad_min_right ((px : ℝ) - x1) ((py : ℝ) - y1)
          ((x2 : ℝ) - x1) ((y2 : ℝ) - y1) t ht1 (by nlinarith [hdotR])
        push_cast
        nlinarith [key]
      · rw [if_neg h1]
        have hlenR : ((x2 : ℝ) - x1) ^ 2 + ((y2 : ℝ) - y1) ^ 2 ≠ 0 := by
          have : (0 : ℝ) < ((x2 - x1) * (x2 - x1) + (y2 - y1) * (y2 - y1) : ℚ) := by
            exact_mod_cast hlen'
          push_cast at this
          nlinarith [this]
        have hdiv : ((TrendLineTool.pointToLineParam px py x1 y1 x2 y2 : ℚ) : ℝ) =
            (((px : ℝ) - x1) * ((x2 : ℝ) - x1) + ((py : ℝ) - y1) * ((y2 : ℝ) - y1)) /
              (((x2 : ℝ) - x1) ^ 2 + ((y2 : ℝ) - y1) ^ 2) := by
          rw [hparam]
          push_cast
          ring_nf
        have key := quad_min_mid ((px : ℝ) - x1) ((py : ℝ) - y1)
          ((x2 : ℝ) - x1) ((y2 : ℝ) - y1) t hlenR
        push_cast
        rw [hdiv]
        nlinarith [key]

/-- `pointToLineDistance ≤ tol` is exactly "some point of the segment is
within `tol`" (for a nonnegative tolerance). -/
theorem pointToLineDistance_le_iff (px py x1 y1 x2 y2 tol : ℚ) (htol : 0 ≤ tol) :
    TrendLineTool.pointToLineDistance px py x1 y1 x2 y2 ≤ (tol : ℝ) ↔
    ∃ t : ℝ, 0 ≤ t ∧ t ≤ 1 ∧
      ((px : ℝ) - ((x1 : ℝ) + t * ((x2 : ℝ) - (x1 : ℝ)))) ^ 2 +
        ((py : ℝ) - ((y1 : ℝ) + t * ((y2 : ℝ) - (y1 : ℝ)))) ^ 2 ≤ (tol : ℝ) ^ 2 := by
  rw [TrendLineTool.pointToLineDistance,
    sqrt_le_iff_sq_le _ _ (by positivity) (by exact_mod_cast htol)]
  constructor
  · intro h
    obtain ⟨t, ht0, ht1, hx, hy⟩ := pointToLineNearest_mem px py x1 y1 x2 y2
    exact ⟨t, ht0, ht1, by rw [hx, hy]; exact h⟩
  · rintro ⟨t, ht0, ht1, hle⟩
    exact le_trans (pointToLineNearest_min px py x1 y1 x2 y2 t ht0 ht1) hle

/-- Endpoint-proximity comparison, moved from `√` to squares. -/
theorem endpoint_dist_iff (u v tol : ℚ) (htol : 0 ≤ tol) :
    Real.sqrt ((u : ℝ) ^ 2 + (v : ℝ) ^ 2) ≤ (tol : ℝ) + 5 ↔
      u ^ 2 + v ^ 2 ≤ (tol + 5) ^ 2 := by
  have hT : (0 : ℝ) ≤ (tol : ℝ) + 5 := by
    have : (0 : ℝ) ≤ (tol : ℝ) := by exact_mod_cast htol
    linarith
  rw [sqrt_le_iff_sq_le _ _ (by positivity) hT,
    show ((tol : ℝ) + 5) = ((tol + 5 : ℚ) : ℝ) by push_cast; ring]
  exact_mod_cast Iff.rfl

/-- Follows the spec's words: the query point lies within `tol` pixels of
the line geometry — some point of the segment is within `tol` — or within
the endpoint-proximity allowance `tol + 5` of either endpoint. -/
def specHitTest (px py x1 y1 x2 y2 tol : ℚ) : Prop :=
  (∃ t : ℝ, 0 ≤ t ∧ t ≤ 1 ∧
    ((px : ℝ) - ((x1 : ℝ) + t * ((x2 : ℝ) - (x1 : ℝ)))) ^ 2 +
      ((py : ℝ) - ((y1 : ℝ) + t * ((y2 : ℝ) - (y1 : ℝ)))) ^ 2 ≤ (tol : ℝ) ^ 2) ∨
  (px - x1) ^ 2 + (py - y1) ^ 2 ≤ (tol + 5) ^ 2 ∨
  (px - x2) ^ 2 + (py - y2) ^ 2 ≤ (tol + 5) ^ 2

/-- The trend line with screen anchors `(0,0)` and `(100,0)` used by the
spec's concrete hit-test cases. -/
def hitLine : TLDrawing :=
  { type := "TrendLine"
    startPoint := some { time := some 0, price := some 0,
                         screenX := some 0, screenY := some 0 }
    endPoint := some { time := some 0, price := some 0,
                       screenX := some 100, screenY := some 0 } }

/-- C7: `isPointInside` holds exactly when the query point is within the
pixel tolerance of the segment or within the endpoint allowance
(`tolerance + 5`) of an endpoint; for the line `(0,0)-(100,0)` a query at
`(50, 2)` with tolerance 5 hits, and a query at `(50, 10)` does not. -/
theorem hitTest_matches_spec :
    (∀ (ty : String) (t1 p1 t2 p2 : Option ℚ) (x1 y1 x2 y2 : ℚ)
       (opts : JsOptions) (ts : ℕ) (ll an : Option ℝ) (sl pd td : Option ℚ)
       (ptx pty tol : ℚ), 0 ≤ tol →
      (TrendLineTool.isPointInside
        { type := ty,
          startPoint := some { time := t1, price := p1,
                               screenX := some x1, screenY := some y1 },
          endPoint := some { time := t2, price := p2,
                             screenX := some x2, screenY := some y2 },
          options := opts, timestamp := ts, lineLength := ll, angle := an,
          slope := sl, priceDifference := pd, timeDifference := td }
        (ptx, pty) tol ↔ specHitTest ptx pty x1 y1 x2 y2 tol)) ∧
    TrendLineTool.isPointInside hitLine (50, 2) 5 ∧
    ¬ TrendLineTool.isPointInside hitLine (50, 10) 5 := by
  have hgen : ∀ (ty : String) (t1 p1 t2 p2 : Option ℚ) (x1 y1 x2 y2 : ℚ)
      (opts : JsOptions) (ts : ℕ) (ll an : Option ℝ) (sl pd td : Option ℚ)
      (ptx pty tol : ℚ), 0 ≤ tol →
      (TrendLineTool.isPointInside
        { type := ty,
          startPoint := some { time := t1, price := p1,
                               screenX := some x1, screenY := some y1 },
          endPoint := some { time := t2, price := p2,
                             screenX := some x2, screenY := some y2 },
          options := opts, timestamp := ts, lineLength := ll, angle := an,
          slope := sl, priceDifference := pd, timeDifference := td }
        (ptx, pty) tol ↔ specHitTest ptx pty x1 y1 x2 y2 tol) := by
    intro ty t1 p1 t2 p2 x1 y1 x2 y2 opts ts ll an sl pd td ptx pty tol htol
    show (TrendLineTool.pointToLineDistance ptx pty x1 y1 x2 y2 ≤ (tol : ℝ) ∨ _ ∨ _) ↔ _
    rw [specHitTest]
    exact or_congr (pointToLineDistance_le_iff ptx pty x1 y1 x2 y2 tol htol)
      (or_congr (endpoint_dist_iff (ptx - x1) (pty - y1) tol htol)
        (endpoint_dist_iff (ptx - x2) (pty - y2) tol htol))
  refine ⟨hgen, ?_, ?_⟩
  · refine (hgen "TrendLine" (some 0) (some 0) (some 0) (some 0) 0 0 100 0
      {} 0 none none none none none 50 2 5 (by norm_num)).mpr ?_
    left
    refine ⟨1/2, by norm_num, by norm_num, ?_⟩
    push_cast
    norm_num
  · intro h
    have hs := (hgen "TrendLine" (some 0) (some 0) (some 0) (some 0) 0 0 100 0
      {} 0 none none none none none 50 10 5 (by norm_num)).mp h
    rcases hs with ⟨t, ht0, ht1, hle⟩ | hs | hs
    · push_cast at hle
      nlinarith [sq_nonneg ((50 : ℝ) - t * 100)]
    · norm_num at hs
    · norm_num at hs

/-- Witness for C7 at the spec's concrete line: tolerance 5 is nonnegative
and the equivalence instantiates at the query `(50, 2)`. -/
theorem hitTest_matches_spec_witness :
    0 ≤ (5 : ℚ) ∧
    (TrendLineTool.isPointInside hitLine (50, 2) 5 ↔
      specHitTest 50 2 0 0 100 0 5) :=
  ⟨by decide,
   hitTest_matches_spec.1 "TrendLine" (some 0) (some 0) (some 0) (some 0)
     0 0 100 0 {} 0 none none none none none 50 2 5 (by decide)⟩

end BTChart
